import Mathlib

/-!
# Verification of the mbed sleep manager (platform/mbed_sleep.h)

The repository exposes a deep-sleep lock counter (`sleep_manager_lock_deep_sleep`,
`sleep_manager_unlock_deep_sleep`, `sleep_manager_can_deep_sleep`), a mode
arbiter (`sleep_manager_sleep_auto`) and two inline entry points (`sleep`,
`deepsleep`).  The entry points are defined in the header under `src/`; the
lock and arbiter bodies live in a translation unit outside `src/`, so they
are modelled from the specification's description of their behaviour.

Compile-time configuration (`MBED_DEBUG`, `DEVICE_SLEEP`, `FEATURE_UVISOR`,
`TARGET_UVISOR_SUPPORTED`) is embedded as a record of Boolean flags, and the
opaque platform suspend primitives are embedded by recording which mode (if
any) the code selected, since they take no inputs and return no value.
-/

namespace MbedSleep

/-- The constant USHRT_MAX: the largest representable 16-bit unsigned value;
the header documents that the lock "can be locked up to USHRT_MAX". -/
def USHRT_MAX : Nat := 65535

/-- The process-wide state of the sleep manager: the deep-sleep lock counter
(an unsigned short in the C code, kept in range by the operations). -/
structure SleepState where
  deep_sleep_lock : Nat
  deriving Repr, DecidableEq

/-- The error conditions the specification requires the lock to report. -/
inductive SleepError where
  | SaturationError
  | UnderflowError
  deriving Repr, DecidableEq

/-- The two low-power modes the arbiter chooses between. -/
inductive SleepMode where
  | shallow
  | deep
  deriving Repr, DecidableEq

/-- Modelled from the spec: the body of `sleep_manager_can_deep_sleep` is not
under `src/` (the header only declares it).  "read-only query returning true
exactly when the counter equals 0"; being a plain function of the state, it
cannot mutate the counter. -/
def sleep_manager_can_deep_sleep (s : SleepState) : Bool :=
  s.deep_sleep_lock == 0

/-- Modelled from the spec: the body of `sleep_manager_lock_deep_sleep` is not
under `src/`.  "counter's new value is old value + 1, unless old value already
equals MAX, in which case the counter is left unchanged and the call reports a
saturation error". -/
def sleep_manager_lock_deep_sleep (s : SleepState) : SleepState × Option SleepError :=
  if s.deep_sleep_lock == USHRT_MAX then
    (s, some SleepError.SaturationError)
  else
    ({ deep_sleep_lock := s.deep_sleep_lock + 1 }, none)

/-- Modelled from the spec: the body of `sleep_manager_unlock_deep_sleep` is
not under `src/`.  "if the counter is already 0, the call must not decrement
into a negative/wrapped state — it must leave the counter at 0 and report an
underflow error.  Postcondition otherwise: new value = old value − 1". -/
def sleep_manager_unlock_deep_sleep (s : SleepState) : SleepState × Option SleepError :=
  if s.deep_sleep_lock == 0 then
    (s, some SleepError.UnderflowError)
  else
    ({ deep_sleep_lock := s.deep_sleep_lock - 1 }, none)

/-- Modelled from the spec: the body of `sleep_manager_sleep_auto` is not
under `src/`.  "If MBED_DEBUG is defined, only hal_sleep is allowed"; otherwise
the deep mode is selected exactly when `sleep_manager_can_deep_sleep()` reports
true.  The selected mode is returned alongside the (unchanged) state, standing
in for the call to the opaque suspend primitive. -/
def sleep_manager_sleep_auto (mbed_debug : Bool) (s : SleepState) :
    SleepMode × SleepState :=
  if mbed_debug then
    (SleepMode.shallow, s)
  else if sleep_manager_can_deep_sleep s then
    (SleepMode.deep, s)
  else
    (SleepMode.shallow, s)

/-- The compile-time configuration flags consulted by the header's
preprocessor conditionals (plus `MBED_DEBUG`, consulted by the arbiter). -/
structure BuildConfig where
  mbed_debug : Bool
  device_sleep : Bool
  feature_uvisor : Bool
  target_uvisor_supported : Bool
  deriving Repr, DecidableEq

/-- Embedding of the inline `sleep()` from `src/platform/mbed_sleep.h`: its
body calls `sleep_manager_sleep_auto()` only when the uVisor guard
(FEATURE_UVISOR and TARGET_UVISOR_SUPPORTED both defined) is not active and
DEVICE_SLEEP is set; otherwise the body compiles away to nothing.  The first
component records which mode (if any) was entered; `none` means the body
compiled away to a no-op. -/
def sleep (cfg : BuildConfig) (s : SleepState) : Option SleepMode × SleepState :=
  if !(cfg.feature_uvisor && cfg.target_uvisor_supported) then
    if cfg.device_sleep then
      let r := sleep_manager_sleep_auto cfg.mbed_debug s
      (some r.1, r.2)
    else
      (none, s)
  else
    (none, s)

/-- Embedding of the inline, deprecated `deepsleep()` from
`src/platform/mbed_sleep.h`; its body is textually identical to `sleep()`:
under the same preprocessor guards it calls `sleep_manager_sleep_auto()`. -/
def deepsleep (cfg : BuildConfig) (s : SleepState) : Option SleepMode × SleepState :=
  if !(cfg.feature_uvisor && cfg.target_uvisor_supported) then
    if cfg.device_sleep then
      let r := sleep_manager_sleep_auto cfg.mbed_debug s
      (some r.1, r.2)
    else
      (none, s)
  else
    (none, s)

/-- A lock/unlock call, for reasoning about call sequences. -/
inductive LockOp where
  | lock
  | unlock
  deriving Repr, DecidableEq

/-- Apply one lock/unlock call to the state (discarding the reported error,
which does not influence the counter). -/
def applyOp (s : SleepState) (op : LockOp) : SleepState :=
  match op with
  | LockOp.lock => (sleep_manager_lock_deep_sleep s).1
  | LockOp.unlock => (sleep_manager_unlock_deep_sleep s).1

/-- Run a sequence of lock/unlock calls from a starting state. -/
def runOps (s : SleepState) (ops : List LockOp) : SleepState :=
  ops.foldl applyOp s

/-- The net sum of +1/−1 operations of a call sequence (the spec's "net sum"). -/
def netSum : List LockOp → Int
  | [] => 0
  | LockOp.lock :: rest => 1 + netSum rest
  | LockOp.unlock :: rest => -1 + netSum rest

/-- Predicate `noCrossing n ops`: starting from counter value `n`, no step of
`ops` crosses the underflow (below 0) or overflow (above `USHRT_MAX`)
boundary, i.e. every intermediate net value stays in `0 .. USHRT_MAX`. -/
def noCrossing (n : Int) : List LockOp → Bool
  | [] => true
  | LockOp.lock :: rest =>
      decide (n + 1 ≤ (USHRT_MAX : Int)) && noCrossing (n + 1) rest
  | LockOp.unlock :: rest =>
      decide (1 ≤ n) && noCrossing (n - 1) rest

/-- Helper: the net sum counts locks minus unlocks, so it is invariant under
permutation of the call sequence. -/
lemma netSum_eq_counts (ops : List LockOp) :
    netSum ops =
      (ops.count LockOp.lock : Int) - (ops.count LockOp.unlock : Int) := by
  induction ops with
  | nil => simp [netSum]
  | cons op rest ih =>
    cases op <;> simp [netSum, ih, List.count_cons] <;> omega

/-- Helper: a sequence with no boundary crossing keeps the net value within
the counter's range. -/
lemma noCrossing_bounds (ops : List LockOp) :
    ∀ n : Int, 0 ≤ n → n ≤ (USHRT_MAX : Int) → noCrossing n ops = true →
      0 ≤ n + netSum ops ∧ n + netSum ops ≤ (USHRT_MAX : Int) := by
  induction ops with
  | nil =>
    intro n h0 h1 _
    simpa [netSum] using ⟨h0, h1⟩
  | cons op rest ih =>
    intro n h0 h1 h
    cases op
    case lock =>
      simp only [noCrossing, Bool.and_eq_true, decide_eq_true_eq] at h
      have hrec := ih (n + 1) (by omega) h.1 h.2
      simp only [netSum]
      omega
    case unlock =>
      simp only [noCrossing, Bool.and_eq_true, decide_eq_true_eq] at h
      have hrec := ih (n - 1) (by omega) (by omega) h.2
      simp only [netSum]
      omega

/-- Helper: running a boundary-safe sequence from counter `n` lands on the
start value plus the net sum. -/
lemma runOps_counter (ops : List LockOp) :
    ∀ n : Nat, n ≤ USHRT_MAX → noCrossing (n : Int) ops = true →
      (runOps ⟨n⟩ ops).deep_sleep_lock = ((n : Int) + netSum ops).toNat := by
  induction ops with
  | nil =>
    intro n _ _
    simp [runOps, netSum]
  | cons op rest ih =>
    intro n hn h
    cases op
    case lock =>
      simp only [noCrossing, Bool.and_eq_true, decide_eq_true_eq] at h
      have hlt : n < 65535 := by
        have h1 := h.1
        simp only [USHRT_MAX] at h1
        omega
      have hbeq : (n == USHRT_MAX) = false := by
        simp only [USHRT_MAX, beq_eq_false_iff_ne, ne_eq]
        omega
      have happ : applyOp ⟨n⟩ LockOp.lock = ⟨n + 1⟩ := by
        simp [applyOp, sleep_manager_lock_deep_sleep, hbeq]
      have hstep : runOps ⟨n⟩ (LockOp.lock :: rest) = runOps ⟨n + 1⟩ rest := by
        simp [runOps, happ]
      rw [hstep]
      have hcast : ((n + 1 : Nat) : Int) = (n : Int) + 1 := by push_cast; ring
      have hrec := ih (n + 1) (by simp only [USHRT_MAX]; omega)
        (by rw [hcast]; exact h.2)
      rw [hrec, hcast]
      simp only [netSum]
      congr 1
      ring
    case unlock =>
      simp only [noCrossing, Bool.and_eq_true, decide_eq_true_eq] at h
      have hpos : 1 ≤ n := by
        have h1 := h.1
        omega
      have hbeq : (n == 0) = false := by
        simp only [beq_eq_false_iff_ne, ne_eq]
        omega
      have happ : applyOp ⟨n⟩ LockOp.unlock = ⟨n - 1⟩ := by
        simp [applyOp, sleep_manager_unlock_deep_sleep, hbeq]
      have hstep : runOps ⟨n⟩ (LockOp.unlock :: rest) = runOps ⟨n - 1⟩ rest := by
        simp [runOps, happ]
      rw [hstep]
      have hcast : ((n - 1 : Nat) : Int) = (n : Int) - 1 := by omega
      have hrec := ih (n - 1) (by simp only [USHRT_MAX] at hn ⊢; omega)
        (by rw [hcast]; exact h.2)
      rw [hrec, hcast]
      simp only [netSum]
      congr 1
      ring

/-- Helper: the arbiter selects the deep mode exactly when the debug flag is
off and the counter is zero. -/
lemma sleep_auto_deep_aux (d : Bool) (s : SleepState) :
    (sleep_manager_sleep_auto d s).1 = SleepMode.deep ↔
      (d = false ∧ s.deep_sleep_lock = 0) := by
  unfold sleep_manager_sleep_auto sleep_manager_can_deep_sleep
  cases d <;> by_cases h : s.deep_sleep_lock = 0 <;> simp [h]

/-- Helper: the arbiter returns one of the two modes. -/
lemma sleep_auto_mode_cases (d : Bool) (s : SleepState) :
    (sleep_manager_sleep_auto d s).1 = SleepMode.deep ∨
      (sleep_manager_sleep_auto d s).1 = SleepMode.shallow := by
  cases hm : (sleep_manager_sleep_auto d s).1
  · exact Or.inr rfl
  · exact Or.inl rfl

/-- Helper: the arbiter never touches the state. -/
lemma sleep_auto_state_aux (d : Bool) (s : SleepState) :
    (sleep_manager_sleep_auto d s).2 = s := by
  unfold sleep_manager_sleep_auto
  cases d <;> by_cases h : sleep_manager_can_deep_sleep s <;> simp [h]

/-- Helper: two sleep-manager states with equal counters are equal. -/
lemma SleepState.eq_of_lock_eq {s t : SleepState}
    (h : s.deep_sleep_lock = t.deep_sleep_lock) : s = t := by
  cases s; cases t; simpa using h

/-- C1: `sleep_manager_sleep_auto` selects the deep low-power mode if and only
if the debug flag is false and `sleep_manager_can_deep_sleep` reports true; in
every other case it selects the shallow mode. -/
theorem sleep_auto_selects_deep_iff (d : Bool) (s : SleepState) :
    ((sleep_manager_sleep_auto d s).1 = SleepMode.deep ↔
      (d = false ∧ sleep_manager_can_deep_sleep s = true)) ∧
    ((sleep_manager_sleep_auto d s).1 = SleepMode.shallow ↔
      ¬(d = false ∧ sleep_manager_can_deep_sleep s = true)) := by
  have hd := sleep_auto_deep_aux d s
  have hc : sleep_manager_can_deep_sleep s = true ↔ s.deep_sleep_lock = 0 := by
    unfold sleep_manager_can_deep_sleep
    simp
  constructor
  · rw [hd, hc]
  · constructor
    · intro hsh hcontra
      have hdeep : (sleep_manager_sleep_auto d s).1 = SleepMode.deep :=
        hd.mpr ⟨hcontra.1, hc.mp hcontra.2⟩
      rw [hsh] at hdeep
      exact absurd hdeep (by simp)
    · intro hn
      rcases sleep_auto_mode_cases d s with hm | hm
      · exact absurd ⟨(hd.mp hm).1, hc.mpr (hd.mp hm).2⟩ hn
      · exact hm

/-- C2: `sleep_manager_can_deep_sleep` returns true exactly when the counter
equals 0, and false otherwise; as a pure function of the state it cannot
change the counter. -/
theorem can_deep_sleep_iff_counter_zero (s : SleepState) :
    (sleep_manager_can_deep_sleep s = true ↔ s.deep_sleep_lock = 0) ∧
    (sleep_manager_can_deep_sleep s = false ↔ s.deep_sleep_lock ≠ 0) := by
  unfold sleep_manager_can_deep_sleep
  constructor <;> simp

/-- C3: `sleep_manager_lock_deep_sleep` increments the counter by one unless
it already equals USHRT_MAX, in which case the counter is left unchanged and a
SaturationError is reported; the counter never wraps to 0. -/
theorem lock_deep_sleep_spec (s : SleepState) :
    (s.deep_sleep_lock = USHRT_MAX →
      sleep_manager_lock_deep_sleep s = (s, some SleepError.SaturationError)) ∧
    (s.deep_sleep_lock ≠ USHRT_MAX →
      sleep_manager_lock_deep_sleep s =
        ({ deep_sleep_lock := s.deep_sleep_lock + 1 }, none)) ∧
    (sleep_manager_lock_deep_sleep s).1.deep_sleep_lock ≠ 0 := by
  unfold sleep_manager_lock_deep_sleep
  by_cases h : s.deep_sleep_lock = USHRT_MAX
  · refine ⟨fun _ => by simp [h], fun hne => absurd h hne, ?_⟩
    simp [h, USHRT_MAX]
  · refine ⟨fun heq => absurd heq h, fun _ => by simp [h], ?_⟩
    simp [h]

/-- Witness for C3 at the saturated counter 65535 and at counter 3. -/
theorem lock_deep_sleep_spec_witness :
    sleep_manager_lock_deep_sleep ⟨65535⟩ =
      (⟨65535⟩, some SleepError.SaturationError) ∧
    sleep_manager_lock_deep_sleep ⟨3⟩ = (⟨4⟩, none) :=
  ⟨(lock_deep_sleep_spec ⟨65535⟩).1 rfl,
   (lock_deep_sleep_spec ⟨3⟩).2.1 (by decide)⟩

/-- C4: `sleep_manager_unlock_deep_sleep` decrements the counter by one when
it is positive; at 0 it leaves the counter at 0 and reports an UnderflowError;
it never wraps, and `sleep_manager_can_deep_sleep` holds afterwards only when
the counter was 0 (clamped) or 1 (legitimately released). -/
theorem unlock_deep_sleep_spec (s : SleepState) :
    (s.deep_sleep_lock = 0 →
      sleep_manager_unlock_deep_sleep s = (s, some SleepError.UnderflowError)) ∧
    (s.deep_sleep_lock ≠ 0 →
      sleep_manager_unlock_deep_sleep s =
        ({ deep_sleep_lock := s.deep_sleep_lock - 1 }, none)) ∧
    (sleep_manager_unlock_deep_sleep s).1.deep_sleep_lock ≤ s.deep_sleep_lock ∧
    (sleep_manager_can_deep_sleep (sleep_manager_unlock_deep_sleep s).1 = true ↔
      (s.deep_sleep_lock = 0 ∨ s.deep_sleep_lock = 1)) := by
  unfold sleep_manager_unlock_deep_sleep
  by_cases h : s.deep_sleep_lock = 0
  · refine ⟨fun _ => by simp [h], fun hne => absurd h hne, ?_, ?_⟩
    · simp [h]
    · simp [h, sleep_manager_can_deep_sleep]
  · refine ⟨fun heq => absurd heq h, fun _ => by simp [h], ?_, ?_⟩
    · simp [h]
    · simp [h, sleep_manager_can_deep_sleep]
      omega

/-- Witness for C4 at counter 0 and at counter 5. -/
theorem unlock_deep_sleep_spec_witness :
    sleep_manager_unlock_deep_sleep ⟨0⟩ =
      (⟨0⟩, some SleepError.UnderflowError) ∧
    sleep_manager_unlock_deep_sleep ⟨5⟩ = (⟨4⟩, none) :=
  ⟨(unlock_deep_sleep_spec ⟨0⟩).1 rfl,
   (unlock_deep_sleep_spec ⟨5⟩).2.1 (by decide)⟩

/-- C5: for every lock/unlock sequence from counter 0 in which no prefix
crosses the underflow or overflow boundary, the final counter equals the net
sum of +1/−1 operations, independent of the order of the calls, and
`sleep_manager_can_deep_sleep` is true iff that net sum is 0. -/
theorem lock_unlock_sequences (ops : List LockOp)
    (h : noCrossing 0 ops = true) :
    (runOps ⟨0⟩ ops).deep_sleep_lock = (netSum ops).toNat ∧
    (sleep_manager_can_deep_sleep (runOps ⟨0⟩ ops) = true ↔ netSum ops = 0) ∧
    ∀ ops' : List LockOp, List.Perm ops ops' → noCrossing 0 ops' = true →
      runOps ⟨0⟩ ops' = runOps ⟨0⟩ ops := by
  have hmain : (runOps ⟨0⟩ ops).deep_sleep_lock = (netSum ops).toNat := by
    have := runOps_counter ops 0 (by simp [USHRT_MAX]) (by simpa using h)
    simpa using this
  have hns : 0 ≤ netSum ops := by
    have := (noCrossing_bounds ops 0 le_rfl (by simp [USHRT_MAX]) h).1
    simpa using this
  refine ⟨hmain, ?_, ?_⟩
  · unfold sleep_manager_can_deep_sleep
    rw [hmain]
    simp only [beq_iff_eq, Int.toNat_eq_zero]
    omega
  · intro ops' hperm h'
    have hmain' : (runOps ⟨0⟩ ops').deep_sleep_lock = (netSum ops').toNat := by
      have := runOps_counter ops' 0 (by simp [USHRT_MAX]) (by simpa using h')
      simpa using this
    have hsum : netSum ops' = netSum ops := by
      rw [netSum_eq_counts, netSum_eq_counts,
        hperm.count_eq LockOp.lock, hperm.count_eq LockOp.unlock]
    exact SleepState.eq_of_lock_eq (by rw [hmain, hmain', hsum])

/-- Witness for C5 at the concrete sequence lock, lock, unlock, unlock. -/
theorem lock_unlock_sequences_witness :
    noCrossing 0 [LockOp.lock, LockOp.lock, LockOp.unlock, LockOp.unlock]
        = true ∧
    (runOps ⟨0⟩
        [LockOp.lock, LockOp.lock, LockOp.unlock,
          LockOp.unlock]).deep_sleep_lock =
      (netSum [LockOp.lock, LockOp.lock, LockOp.unlock, LockOp.unlock]).toNat :=
  ⟨by decide,
   (lock_unlock_sequences
      [LockOp.lock, LockOp.lock, LockOp.unlock, LockOp.unlock] (by decide)).1⟩

/-- C6: from a state where `sleep_manager_can_deep_sleep` is true, one lock
followed by one unlock restores the counter and `sleep_manager_can_deep_sleep`
to true. -/
theorem lock_then_unlock_restores (s : SleepState)
    (h : sleep_manager_can_deep_sleep s = true) :
    (sleep_manager_unlock_deep_sleep (sleep_manager_lock_deep_sleep s).1).1 = s ∧
    sleep_manager_can_deep_sleep
      (sleep_manager_unlock_deep_sleep (sleep_manager_lock_deep_sleep s).1).1
        = true := by
  have h0 : s.deep_sleep_lock = 0 := by
    simpa [sleep_manager_can_deep_sleep] using h
  have hlock : (sleep_manager_lock_deep_sleep s).1 = ⟨1⟩ := by
    unfold sleep_manager_lock_deep_sleep
    simp [h0, USHRT_MAX]
  have hunlock :
      (sleep_manager_unlock_deep_sleep (⟨1⟩ : SleepState)).1 = ⟨0⟩ := by
    unfold sleep_manager_unlock_deep_sleep
    simp
  rw [hlock, hunlock]
  exact ⟨(SleepState.eq_of_lock_eq (by simp [h0])),
    by simp [sleep_manager_can_deep_sleep]⟩

/-- Witness for C6 at the fresh state with counter 0. -/
theorem lock_then_unlock_restores_witness :
    (sleep_manager_unlock_deep_sleep
      (sleep_manager_lock_deep_sleep ⟨0⟩).1).1 = ⟨0⟩ :=
  (lock_then_unlock_restores ⟨0⟩ (by decide)).1

/-- C7: `sleep_manager_sleep_auto` leaves the lock counter unchanged for every
configuration and state: the arbiter only reads the lock. -/
theorem sleep_auto_preserves_state (d : Bool) (s : SleepState) :
    (sleep_manager_sleep_auto d s).2 = s :=
  sleep_auto_state_aux d s

/-- C8: with no hardware sleep primitive (DEVICE_SLEEP unset), `sleep()` is a
no-op that changes no state and reports no error; the arbiter itself always
succeeds in choosing some mode. -/
theorem sleep_noop_without_device_sleep (cfg : BuildConfig) (s : SleepState)
    (h : cfg.device_sleep = false) :
    sleep cfg s = (none, s) ∧
    ∀ (d : Bool) (t : SleepState),
      (sleep_manager_sleep_auto d t).1 = SleepMode.deep ∨
        (sleep_manager_sleep_auto d t).1 = SleepMode.shallow := by
  refine ⟨?_, fun d t => sleep_auto_mode_cases d t⟩
  unfold sleep
  by_cases hu : cfg.feature_uvisor && cfg.target_uvisor_supported <;>
    simp [hu, h]

/-- Witness for C8 at a configuration without DEVICE_SLEEP. -/
theorem sleep_noop_without_device_sleep_witness :
    sleep ⟨true, false, false, false⟩ ⟨0⟩ = (none, ⟨0⟩) :=
  (sleep_noop_without_device_sleep ⟨true, false, false, false⟩ ⟨0⟩ rfl).1

/-- C9: the deprecated `deepsleep()` is observably equivalent to `sleep()`,
and does not force the deep mode: with a non-zero lock counter or a debug
build it never enters the deep mode. -/
theorem deepsleep_equiv_sleep (cfg : BuildConfig) (s : SleepState) :
    deepsleep cfg s = sleep cfg s ∧
    ((cfg.mbed_debug = true ∨ s.deep_sleep_lock ≠ 0) →
      (deepsleep cfg s).1 ≠ some SleepMode.deep) := by
  refine ⟨rfl, fun h hdeep => ?_⟩
  unfold deepsleep at hdeep
  cases hu : cfg.feature_uvisor && cfg.target_uvisor_supported with
  | true =>
    rw [hu] at hdeep
    simp at hdeep
  | false =>
    rw [hu] at hdeep
    cases hd : cfg.device_sleep with
    | false =>
      rw [hd] at hdeep
      simp at hdeep
    | true =>
      rw [hd] at hdeep
      simp at hdeep
      have hds := (sleep_auto_deep_aux cfg.mbed_debug s).mp hdeep
      rcases h with h | h
      · rw [h] at hds
        exact absurd hds.1 (by simp)
      · exact h hds.2

/-- Witness for C9: with counter 3 and a debug-free configuration,
`deepsleep()` does not enter the deep mode. -/
theorem deepsleep_equiv_sleep_witness :
    (deepsleep ⟨false, true, false, false⟩ ⟨3⟩).1 ≠ some SleepMode.deep :=
  (deepsleep_equiv_sleep ⟨false, true, false, false⟩ ⟨3⟩).2
    (Or.inr (by decide))

/-- C10: when uVisor is in use (FEATURE_UVISOR and TARGET_UVISOR_SUPPORTED
both defined), `sleep()` and `deepsleep()` are no-ops that never invoke the
arbiter, even when DEVICE_SLEEP is present. -/
theorem uvisor_makes_sleep_noop (cfg : BuildConfig) (s : SleepState)
    (h1 : cfg.feature_uvisor = true) (h2 : cfg.target_uvisor_supported = true) :
    sleep cfg s = (none, s) ∧ deepsleep cfg s = (none, s) := by
  unfold sleep deepsleep
  simp [h1, h2]

/-- Witness for C10 at a configuration with uVisor active and DEVICE_SLEEP
present. -/
theorem uvisor_makes_sleep_noop_witness :
    sleep ⟨false, true, true, true⟩ ⟨0⟩ = (none, ⟨0⟩) ∧
    deepsleep ⟨false, true, true, true⟩ ⟨0⟩ = (none, ⟨0⟩) :=
  uvisor_makes_sleep_noop ⟨false, true, true, true⟩ ⟨0⟩ rfl rfl

end MbedSleep
